import Mathlib

/-!
Verification development for the ClipboardPhotoEditor image transform and
export pipeline.  The definitions below are a shallow embedding of the
JavaScript source (src/utils/imageExport.js, src/utils/imageUpload.js,
src/components/ClipboardPhotoCropper.js, ClipboardPhotoResizer.js,
ClipboardPhotoDrawer.js, src/utils/useImageExportControls.js).

Modelling conventions:
* JavaScript numbers that take part in fractional arithmetic (crop
  coordinates, scale factors, quality) are modelled as rationals (ℚ);
  `Math.round` is the Mathlib `round` (both are floor (x + 1/2)).
* Nullable references become `Option`; a JavaScript falsiness test
  `!crop.width` on a numeric field becomes an equality test with 0.
* Pixel contents are not modelled: a canvas is its buffer geometry
  (the claims under verification are about dimensions, control flow and
  state, never about resampled pixel values).
* Platform codecs (`canvas.toBlob`) and the platform clipboard are
  modelled as explicit parameters so that success and failure of the
  environment can be quantified over.
-/

/-- Export image formats handled by the codec layer
(the JavaScript strings `image/png` and `image/jpeg`). -/
inductive ImageFormat where
  | png
  | jpeg
deriving DecidableEq, Repr

/-- A canvas, reduced to its buffer geometry (`canvas.width`,
`canvas.height`).  In the browser these are set from `Math.round`
results, so they are integers. -/
structure Canvas where
  width : ℤ
  height : ℤ
deriving DecidableEq, Repr

/-- The source `<img>` element as seen by `createCroppedCanvas`:
natural (decoded) dimensions and display dimensions. -/
structure ImageRef where
  naturalWidth : ℚ
  naturalHeight : ℚ
  width : ℚ
  height : ℚ
deriving DecidableEq, Repr

/-- A crop region in display coordinates, as produced by ReactCrop. -/
structure CropRegion where
  x : ℚ
  y : ℚ
  width : ℚ
  height : ℚ
deriving DecidableEq, Repr

/-- Embedding of `createCroppedCanvas(imageRef, crop)` from
src/utils/imageExport.js.  The guard
`if (!imageRef || !crop || !crop.width || !crop.height) return null;`
becomes the `none`/zero tests below.  The body computes
`scaleX = naturalWidth / width`, `scaleY = naturalHeight / height`,
sizes the canvas to `Math.round(crop.width * scaleX)` by
`Math.round(crop.height * scaleY)` and draws the scaled source
rectangle into it (pixel resampling by `drawImage` is not modelled;
the function is total, mirroring the try/catch in the body which can only
return a canvas or null, never propagate an exception). -/
def createCroppedCanvas (imageRef : Option ImageRef) (crop : Option CropRegion) :
    Option Canvas :=
  match imageRef, crop with
  | some img, some c =>
    if c.width = 0 ∨ c.height = 0 then none
    else
      let scaleX := img.naturalWidth / img.width
      let scaleY := img.naturalHeight / img.height
      some { width := round (c.width * scaleX), height := round (c.height * scaleY) }
  | _, _ => none

/-- Original dimensions `{width, height}` as passed to
`createResizedCanvas` (set from the pixel size of the decoded image). -/
structure Dimensions where
  width : ℚ
  height : ℚ
deriving DecidableEq, Repr

/-- Embedding of `createResizedCanvas(image, dimensions, scale)` from
src/utils/imageExport.js (the same arithmetic is inlined in
`processImage` of ClipboardPhotoResizer.js).  Guard:
`if (!image || !dimensions || scale <= 0) return null;`; body:
`scaleFactor = scale / 100`,
`canvas.width = Math.round(dimensions.width * scaleFactor)` and
likewise for the height.  `imagePresent` stands for the nullability of
the source image argument; pixel resampling is not modelled. -/
def createResizedCanvas (imagePresent : Bool) (dimensions : Option Dimensions)
    (scale : ℚ) : Option Canvas :=
  if imagePresent = false ∨ dimensions = none ∨ scale ≤ 0 then none
  else
    match dimensions with
    | none => none
    | some dims =>
      let scaleFactor := scale / 100
      some { width := round (dims.width * scaleFactor)
             height := round (dims.height * scaleFactor) }

/-- An encoded image blob: the format it was encoded in and its byte
size.  `Blob.format` records the MIME type the codec was asked for,
which is what the claims about encoding formats inspect. -/
structure Blob where
  format : ImageFormat
  size : ℕ
deriving DecidableEq, Repr

/-- A platform codec: models `canvas.toBlob(cb, format, quality)`.
`none` models the codec passing `null` to the callback (encode
failure). -/
def Codec : Type := Canvas → ImageFormat → ℚ → Option Blob

/-- The JavaScript `Number.prototype.toFixed(2)` operation on a non-negative
rational: round to the nearest hundredth (ties away from zero, which
for non-negative values is `round`) and print with two decimals. -/
def toFixed2 (q : ℚ) : String :=
  let n := (round (q * 100)).toNat
  let whole := n / 100
  let frac := n % 100
  let fracStr := if frac < 10 then "0" ++ toString frac else toString frac
  toString whole ++ "." ++ fracStr

/-- The value `calculateImageSize` resolves with:
`{blob, sizeInMB}`. -/
structure SizeResult where
  blob : Option Blob
  sizeInMB : String
deriving DecidableEq, Repr

/-- Embedding of `calculateImageSize(canvas, format, quality)` from
src/utils/imageExport.js.  A null canvas resolves
`{blob: null, sizeInMB: `0.00`}`; a null blob from `canvas.toBlob`
resolves the same; otherwise it resolves the blob together with
`(blob.size / (1024 * 1024)).toFixed(2)`.  The promise always
resolves, never rejects, so the embedding is a total function. -/
def calculateImageSize (codec : Codec) (canvas : Option Canvas)
    (format : ImageFormat) (quality : ℚ) : SizeResult :=
  match canvas with
  | none => { blob := none, sizeInMB := "0.00" }
  | some c =>
    match codec c format quality with
    | none => { blob := none, sizeInMB := "0.00" }
    | some blob => { blob := some blob, sizeInMB := toFixed2 ((blob.size : ℚ) / (1024 * 1024)) }

/-- Observable outcome of `copyToClipboard`: the resolved boolean and
the format actually handed to the encoder for the clipboard payload
(`none` when the guard returned before encoding). -/
structure CopyOutcome where
  success : Bool
  encodedAs : Option ImageFormat
deriving DecidableEq, Repr

/-- Embedding of `copyToClipboard(canvas, format, quality, toast)` from
src/utils/imageExport.js.  A null canvas toasts an error and returns
false.  Otherwise the body always encodes with
`calculateImageSize(canvas, `image/png`)` — the source comment reads
"Always use PNG for clipboard operations as browsers only support
PNG" — regardless of the requested `format`, which only selects the
toast wording.  A null blob throws, and the catch returns false; a
rejected `navigator.clipboard.write` (modelled by `writeOk = false`)
is caught the same way.  Every failure path is caught, so the
embedding is total.  The default quality of `calculateImageSize`
(0.9) applies because the call passes no quality argument. -/
def copyToClipboard (codec : Codec) (writeOk : Bool) (canvas : Option Canvas)
    (format : ImageFormat) (quality : ℚ) : CopyOutcome :=
  match canvas with
  | none => { success := false, encodedAs := none }
  | some c =>
    match (calculateImageSize codec (some c) ImageFormat.png (9 / 10)).blob with
    | none => { success := false, encodedAs := some ImageFormat.png }
    | some _ =>
      { success := writeOk, encodedAs := some ImageFormat.png }

/-- Observable outcome of `downloadImage`: the resolved boolean, the
format handed to the encoder, and the download attribute of the
created link (`{filename}.{ext}`). -/
structure DownloadOutcome where
  success : Bool
  encodedAs : Option ImageFormat
  downloadName : Option String
deriving DecidableEq, Repr

/-- Embedding of `downloadImage(canvas, format, quality, filename,
toast)` from src/utils/imageExport.js.  A null canvas toasts an error
and returns false; a null blob throws into the catch which returns
false; otherwise a link named `{filename}.png` or `{filename}.jpg`
(by the requested format) is clicked and the function returns true.
All failures are caught, so the embedding is total. -/
def downloadImage (codec : Codec) (canvas : Option Canvas) (format : ImageFormat)
    (quality : ℚ) (filename : String) : DownloadOutcome :=
  match canvas with
  | none => { success := false, encodedAs := none, downloadName := none }
  | some c =>
    match (calculateImageSize codec (some c) format quality).blob with
    | none => { success := false, encodedAs := some format, downloadName := none }
    | some _ =>
      let ext := if format = ImageFormat.png then "png" else "jpg"
      { success := true, encodedAs := some format,
        downloadName := some (filename ++ "." ++ ext) }

/-- A clipboard `DataTransferItem` (or a picked file): its MIME type
string and the natural pixel dimensions and byte size of the decoded
payload. -/
structure ClipItem where
  mimeType : String
  width : ℕ
  height : ℕ
  byteSize : ℕ
deriving DecidableEq, Repr

/-- Character-list version of `String.startsWith`: does the second
list begin with the first? -/
def leadsWith : List Char → List Char → Bool
  | [], _ => true
  | _ :: _, [] => false
  | p :: ps, c :: cs => p == c && leadsWith ps cs

/-- Does the second character list contain the first as a contiguous
run? -/
def hasRun (pat : List Char) : List Char → Bool
  | [] => leadsWith pat []
  | c :: cs => leadsWith pat (c :: cs) || hasRun pat cs

/-- `t.indexOf(`image`) !== -1`: the string contains "image" as a
substring (evaluated on the character list of the string so that concrete
instances reduce in the kernel). -/
def mimeMentionsImage (t : String) : Bool :=
  hasRun "image".data t.data

/-- The check `t.startsWith("image/")`, evaluated on the character
list of the string. -/
def mimeStartsImageSlash (t : String) : Bool :=
  leadsWith "image/".data t.data

/-- Observable outcome of a paste / file-select handler. -/
inductive PasteOutcome where
  /-- The handler returned without toasting or installing anything
  (e.g. no clipboard items at all). -/
  | noAction
  /-- Toasted `No image found in clipboard` / `Selected file is not an image`; nothing installed. -/
  | noImageFound
  /-- Toasted `Image dimensions must be at least 10x10 pixels`;
  nothing installed. -/
  | imageTooSmall
  /-- `setImage` was called: the item was installed as the source
  image of the session. -/
  | installed (item : ClipItem)
deriving DecidableEq, Repr

/-- Embedding of `handlePaste` from the shared `useImageUpload` hook
(src/utils/imageUpload.js), used by the Cropper and the Drawer.  If
`e.clipboardData?.items` is absent the handler returns silently; else
it looks for the first item whose type contains `image`; if found it
creates an object URL and installs it via `setImage` immediately —
there is no dimension check anywhere on this path; otherwise it
toasts `No image found in clipboard`. -/
def useImageUploadHandlePaste (items : Option (List ClipItem)) : PasteOutcome :=
  match items with
  | none => PasteOutcome.noAction
  | some l =>
    match l.find? (fun it => mimeMentionsImage it.mimeType) with
    | some it => PasteOutcome.installed it
    | none => PasteOutcome.noImageFound

/-- Embedding of `handleFileUpload` from the shared `useImageUpload`
hook (src/utils/imageUpload.js): takes `e.target.files[0]`; if the
file exists and its type starts with `image/` it is installed via
`setImage` with no dimension check; if it exists with another type
the handler toasts an error; with no file it does nothing. -/
def handleFileUpload (file : Option ClipItem) : PasteOutcome :=
  match file with
  | none => PasteOutcome.noAction
  | some f =>
    if mimeStartsImageSlash f.mimeType then PasteOutcome.installed f
    else PasteOutcome.noImageFound

/-- Embedding of `handlePaste` from ClipboardPhotoResizer.js: finds
the first clipboard item whose type starts with `image/`; if none,
toasts `No image found in clipboard`; otherwise decodes it and, in
`img.onload`, rejects it when `img.width < 10 || img.height < 10`
with the toast `Image dimensions must be at least 10x10 pixels`,
installing it (`setImage`, `setDimensions`, `setFileSize`) only
otherwise. -/
def resizerHandlePaste (items : List ClipItem) : PasteOutcome :=
  match items.find? (fun it => mimeStartsImageSlash it.mimeType) with
  | none => PasteOutcome.noImageFound
  | some it =>
    if it.width < 10 ∨ it.height < 10 then PasteOutcome.imageTooSmall
    else PasteOutcome.installed it

/-- A full-canvas raster snapshot (`canvas.toDataURL()` in the
source). -/
abbrev Snapshot : Type := String

/-- The drawing-history portion of state of ClipboardPhotoDrawer: the
`drawingHistory` array of snapshots, `currentHistoryIndex`, and the
current contents of the canvas element. -/
structure HistoryState where
  drawingHistory : List Snapshot
  currentHistoryIndex : ℤ
  canvas : Snapshot
deriving DecidableEq

/-- JavaScript `array.slice(0, e)`: a negative end counts from the end
of the array, clamped at 0. -/
def jsSliceToEnd (e : ℤ) (l : List Snapshot) : List Snapshot :=
  if e < 0 then l.take (l.length - (-e).toNat)
  else l.take e.toNat

/-- Embedding of `undo` from ClipboardPhotoDrawer.js: a no-op when
`currentHistoryIndex <= 0`; otherwise it decrements the index and
redraws the canvas from `drawingHistory[newIndex]` (clearRect then
drawImage, i.e. the canvas becomes exactly that snapshot).  An
out-of-range index would leave `img.src` undefined so `onload` never
fires and the canvas stays unchanged; `getD` with the old canvas as
default models that. -/
def undo (s : HistoryState) : HistoryState :=
  if s.currentHistoryIndex ≤ 0 then s
  else
    let newIndex := s.currentHistoryIndex - 1
    { s with currentHistoryIndex := newIndex,
             canvas := s.drawingHistory.getD newIndex.toNat s.canvas }

/-- Embedding of `saveToHistory` from ClipboardPhotoDrawer.js:
`newHistory = drawingHistory.slice(0, currentHistoryIndex + 1)`, then
push `canvasRef.current.toDataURL()` (the current canvas snapshot),
set the history to `newHistory` and the index to
`newHistory.length - 1`. -/
def saveToHistory (s : HistoryState) : HistoryState :=
  let newHistory := jsSliceToEnd (s.currentHistoryIndex + 1) s.drawingHistory ++ [s.canvas]
  { s with drawingHistory := newHistory,
           currentHistoryIndex := (newHistory.length : ℤ) - 1 }

/-- The invariant claimed for the drawing history:
`0 ≤ currentHistoryIndex < length(history)` whenever the history is
non-empty. -/
def historyInvariant (s : HistoryState) : Prop :=
  s.drawingHistory ≠ [] →
    0 ≤ s.currentHistoryIndex ∧ s.currentHistoryIndex < (s.drawingHistory.length : ℤ)

instance (s : HistoryState) : Decidable (historyInvariant s) := by
  unfold historyInvariant; infer_instance

/-- A scheduled timeout as the browser sees it: its id (the value
returned by `setTimeout`), its delay in milliseconds and the
parameter snapshot the scheduled callback closed over. -/
structure Timer (P : Type) where
  id : ℕ
  delayMs : ℕ
  param : P
deriving DecidableEq, Repr

/-- The state relevant to `debouncedUpdateOutputSizes` in
ClipboardPhotoCropper.js: the set of live browser timers, the
ref `debounceTimeoutRef.current` of the component, and a fresh-id counter for
`setTimeout`. -/
structure DebounceState (P : Type) where
  pendingTimers : List (Timer P)
  timeoutRef : Option ℕ
  nextId : ℕ
deriving DecidableEq, Repr

/-- `clearTimeout(id)`: removes the timer with the given id from the
pending set of the browser (a no-op for an unknown id). -/
def clearTimeoutById (P : Type) (st : DebounceState P) (i : ℕ) : DebounceState P :=
  { st with pendingTimers := st.pendingTimers.filter (fun t => t.id ≠ i) }

/-- Embedding of `debouncedUpdateOutputSizes` from
ClipboardPhotoCropper.js: if `debounceTimeoutRef.current` is set,
`clearTimeout` it; then `setTimeout(updateOutputSizes, 200)` closing
over the current parameters `p`, storing the new timer id back into
`debounceTimeoutRef.current`. -/
def debouncedUpdateOutputSizes (P : Type) (st : DebounceState P) (p : P) :
    DebounceState P :=
  let st1 := match st.timeoutRef with
             | some i => clearTimeoutById P st i
             | none => st
  { pendingTimers := st1.pendingTimers ++ [{ id := st1.nextId, delayMs := 200, param := p }],
    timeoutRef := some st1.nextId,
    nextId := st1.nextId + 1 }

/-- Well-formedness of the debounce state: every pending timer that
this component owns is the one `debounceTimeoutRef` refers to, and
timer ids are below the fresh-id counter.  This holds initially
(`pendingTimers = []`, `timeoutRef = null`). -/
def DebounceWF (P : Type) (st : DebounceState P) : Prop :=
  ∀ t ∈ st.pendingTimers, st.timeoutRef = some t.id ∧ t.id < st.nextId

/-- Output size estimates as displayed: PNG and JPG sizes in MB,
rendered with two decimals. -/
structure OutputSizes where
  png : String
  jpg : String
deriving DecidableEq, Repr

/-- The React state of ClipboardPhotoDrawer, together with the state
owned by its `useImageExportControls` hook
(src/utils/useImageExportControls.js). -/
structure DrawerState where
  image : Option String
  crop : Option CropRegion
  imageRef : Option ImageRef
  isDrawing : Bool
  drawingColor : String
  strokeSize : ℕ
  isEraser : Bool
  drawingHistory : List Snapshot
  currentHistoryIndex : ℤ
  outputSizes : OutputSizes
  jpegQuality : ℕ
deriving DecidableEq

/-- The initial state of ClipboardPhotoDrawer: the `useState` initial
values in ClipboardPhotoDrawer.js and useImageExportControls.js. -/
def initialDrawerState : DrawerState :=
  { image := none
    crop := none
    imageRef := none
    isDrawing := false
    drawingColor := "#FF0000"
    strokeSize := 5
    isEraser := false
    drawingHistory := []
    currentHistoryIndex := -1
    outputSizes := { png := "0.00", jpg := "0.00" }
    jpegQuality := 90 }

/-- Embedding of `resetApp` from ClipboardPhotoDrawer.js: sets image
to null, crop to undefined, imageRef to null, calls
`resetExportState()` (which sets outputSizes to
`{png: `0.00`, jpg: `0.00`}` and jpegQuality to 90 in
useImageExportControls.js), and resets isDrawing, drawingColor,
strokeSize, isEraser, drawingHistory and currentHistoryIndex. -/
def resetApp (s : DrawerState) : DrawerState :=
  { s with
    image := none
    crop := none
    imageRef := none
    outputSizes := { png := "0.00", jpg := "0.00" }
    jpegQuality := 90
    isDrawing := false
    drawingColor := "#FF0000"
    strokeSize := 5
    isEraser := false
    drawingHistory := []
    currentHistoryIndex := -1 }

/-- A codec that encodes every request successfully, producing a blob
in the requested format; used to instantiate the environment in
concrete evaluations. -/
def okCodec : Codec := fun _ f _ => some { format := f, size := 1024 }

/-- C1: for every source image with natural and display dimensions and
every CropRegion with positive width and height in display
coordinates, `createCroppedCanvas` produces an output buffer whose
dimensions are exactly `round(width * naturalWidth / displayWidth)` by
`round(height * naturalHeight / displayHeight)`. -/
theorem createCroppedCanvas_dims (img : ImageRef) (c : CropRegion)
    (hw : 0 < c.width) (hh : 0 < c.height) :
    (createCroppedCanvas (some img) (some c)).map (fun cv => (cv.width, cv.height))
      = some (round (c.width * (img.naturalWidth / img.width)),
              round (c.height * (img.naturalHeight / img.height))) := by
  simp only [createCroppedCanvas]
  rw [if_neg]
  · rfl
  · push_neg
    exact ⟨ne_of_gt hw, ne_of_gt hh⟩

/-- Witness for C1 on the scenario given in the spec: a 200×100 image shown
at 1:1 with crop `{x:50, y:25, width:100, height:50}` crops to a
100×50 buffer. -/
theorem createCroppedCanvas_dims_witness :
    (0 : ℚ) < 100 ∧ (0 : ℚ) < 50 ∧
    (createCroppedCanvas
        (some { naturalWidth := 200, naturalHeight := 100, width := 200, height := 100 })
        (some { x := 50, y := 25, width := 100, height := 50 })).map
          (fun cv => (cv.width, cv.height))
      = some (100, 50) := by
  refine ⟨by norm_num, by norm_num, ?_⟩
  rw [createCroppedCanvas_dims
    { naturalWidth := 200, naturalHeight := 100, width := 200, height := 100 }
    { x := 50, y := 25, width := 100, height := 50 } (by norm_num) (by norm_num)]
  norm_num

/-- C2: `createResizedCanvas` with positive scale produces a buffer of
dimensions `round(width * scale/100)` by `round(height * scale/100)`;
scale = 100 is the identity on integer dimensions; scale ≤ 0 produces
no output. -/
theorem createResizedCanvas_dims (w h : ℕ) (scale : ℚ) :
    (0 < scale →
      (createResizedCanvas true (some { width := (w : ℚ), height := (h : ℚ) }) scale).map
          (fun cv => (cv.width, cv.height))
        = some (round ((w : ℚ) * (scale / 100)), round ((h : ℚ) * (scale / 100))))
    ∧ (createResizedCanvas true (some { width := (w : ℚ), height := (h : ℚ) }) 100).map
          (fun cv => (cv.width, cv.height)) = some ((w : ℤ), (h : ℤ))
    ∧ (scale ≤ 0 →
        createResizedCanvas true (some { width := (w : ℚ), height := (h : ℚ) }) scale = none) := by
  refine ⟨?_, ?_, ?_⟩
  · intro hpos
    unfold createResizedCanvas
    rw [if_neg]
    · rfl
    · push_neg
      refine ⟨by simp, by simp, hpos⟩
  · unfold createResizedCanvas
    rw [if_neg]
    · show some ((round ((w : ℚ) * (100 / 100)) : ℤ), (round ((h : ℚ) * (100 / 100)) : ℤ))
        = some ((w : ℤ), (h : ℤ))
      norm_num
    · push_neg
      refine ⟨by simp, by simp, by norm_num⟩
  · intro hle
    unfold createResizedCanvas
    rw [if_pos (Or.inr (Or.inr hle))]

/-- Witness for C2 on the scenario given in the spec: a 400×300 image at scale 50
resizes to 200×150, and scale 0 yields no canvas. -/
theorem createResizedCanvas_dims_witness :
    (0 : ℚ) < 50 ∧
    (createResizedCanvas true (some { width := ((400 : ℕ) : ℚ), height := ((300 : ℕ) : ℚ) }) 50).map
        (fun cv => (cv.width, cv.height)) = some (200, 150)
    ∧ createResizedCanvas true (some { width := ((400 : ℕ) : ℚ), height := ((300 : ℕ) : ℚ) }) 0
        = none := by
  refine ⟨by norm_num, ?_, ?_⟩
  · rw [(createResizedCanvas_dims 400 300 50).1 (by norm_num)]
    norm_num
  · exact (createResizedCanvas_dims 400 300 0).2.2 le_rfl

/-- C5: with a null canvas, `calculateImageSize` resolves
`{blob: null, sizeInMB: `0.00`}`, `copyToClipboard` resolves false and
`downloadImage` resolves false; all three are total functions of the
embedding, so none of them throws. -/
theorem nullCanvas_export_fails (codec : Codec) (format : ImageFormat) (q : ℚ)
    (writeOk : Bool) (filename : String) :
    calculateImageSize codec none format q = { blob := none, sizeInMB := "0.00" }
    ∧ (copyToClipboard codec writeOk none format q).success = false
    ∧ (downloadImage codec none format q filename).success = false :=
  ⟨rfl, rfl, rfl⟩

/-- C8: `createCroppedCanvas` returns null (no output, no exception)
when the crop has zero width or zero height, and when the image or
the crop is missing. -/
theorem createCroppedCanvas_degenerate (img : ImageRef) (c : CropRegion)
    (hzero : c.width = 0 ∨ c.height = 0) :
    createCroppedCanvas (some img) (some c) = none
    ∧ (∀ c2 : Option CropRegion, createCroppedCanvas none c2 = none)
    ∧ (∀ i2 : Option ImageRef, createCroppedCanvas i2 none = none) := by
  refine ⟨?_, ?_, ?_⟩
  · simp only [createCroppedCanvas]
    rw [if_pos hzero]
  · intro c2
    cases c2 <;> rfl
  · intro i2
    cases i2 <;> rfl

/-- Witness for C8: a zero-width crop of a concrete image produces no
canvas. -/
theorem createCroppedCanvas_degenerate_witness :
    createCroppedCanvas
      (some { naturalWidth := 200, naturalHeight := 100, width := 200, height := 100 })
      (some { x := 5, y := 5, width := 0, height := 40 }) = none :=
  (createCroppedCanvas_degenerate
    { naturalWidth := 200, naturalHeight := 100, width := 200, height := 100 }
    { x := 5, y := 5, width := 0, height := 40 } (Or.inl rfl)).1

/-- C3 counterexample: with a present canvas, a fully permissive
codec and clipboard, and a requested format of JPEG,
`copyToClipboard` does not encode the clipboard payload as JPEG —
the source hard-codes `calculateImageSize(canvas, `image/png`)`
("Always use PNG for clipboard operations"). -/
theorem copyToClipboard_jpeg_counterexample :
    (copyToClipboard okCodec true (some { width := 4, height := 4 })
        ImageFormat.jpeg (9 / 10)).encodedAs ≠ some ImageFormat.jpeg := by
  decide

/-- C3 amended: a clipboard write with a present canvas always hands
the encoder PNG, whatever format was requested (the format only
selects the notification wording); if the platform clipboard rejects
the write, the operation resolves false — a reported recoverable
failure — and, the embedding being a total function, never throws. -/
theorem copyToClipboard_always_png (codec : Codec) (writeOk : Bool) (c : Canvas)
    (format : ImageFormat) (q : ℚ) :
    (copyToClipboard codec writeOk (some c) format q).encodedAs = some ImageFormat.png
    ∧ (writeOk = false → (copyToClipboard codec writeOk (some c) format q).success = false) := by
  cases hb : (calculateImageSize codec (some c) ImageFormat.png (9 / 10)).blob with
  | none => simp [copyToClipboard, hb]
  | some b =>
    simp only [copyToClipboard, hb]
    exact ⟨trivial, fun hw => hw⟩

/-- Witness for C3 (amended) with a concrete canvas, codec and a
rejecting clipboard. -/
theorem copyToClipboard_always_png_witness :
    (copyToClipboard okCodec false (some { width := 4, height := 4 })
        ImageFormat.jpeg (9 / 10)).encodedAs = some ImageFormat.png
    ∧ (copyToClipboard okCodec false (some { width := 4, height := 4 })
        ImageFormat.jpeg (9 / 10)).success = false :=
  ⟨(copyToClipboard_always_png okCodec false { width := 4, height := 4 }
      ImageFormat.jpeg (9 / 10)).1,
   (copyToClipboard_always_png okCodec false { width := 4, height := 4 }
      ImageFormat.jpeg (9 / 10)).2 rfl⟩

/-- C4 counterexample: a pasted 5×5 image — below the 10×10 threshold
— is installed as the source image of the session by the shared
`useImageUpload` paste handler (used by the Cropper and the Drawer),
which contains no dimension check, instead of being rejected with
ImageTooSmall. -/
theorem useImageUpload_installs_small_image :
    useImageUploadHandlePaste
        (some [{ mimeType := "image/png", width := 5, height := 5, byteSize := 77 }])
      = PasteOutcome.installed { mimeType := "image/png", width := 5, height := 5, byteSize := 77 }
    ∧ useImageUploadHandlePaste
        (some [{ mimeType := "image/png", width := 5, height := 5, byteSize := 77 }])
      ≠ PasteOutcome.imageTooSmall := by
  constructor
  · decide
  · decide

/-- C4 amended: only the paste handler of the Resizer enforces the 10×10
minimum, rejecting any found image item with width < 10 or
height < 10 as ImageTooSmall and not installing it; the shared
`useImageUpload` hook installs whatever image item it finds with no
dimension check at all. -/
theorem minDimensions_enforcement (items : List ClipItem) (it : ClipItem)
    (hfind : items.find? (fun i => mimeStartsImageSlash i.mimeType) = some it)
    (hsmall : it.width < 10 ∨ it.height < 10) :
    resizerHandlePaste items = PasteOutcome.imageTooSmall
    ∧ ∀ (l : List ClipItem) (j : ClipItem),
        l.find? (fun i => mimeMentionsImage i.mimeType) = some j →
          useImageUploadHandlePaste (some l) = PasteOutcome.installed j := by
  constructor
  · simp only [resizerHandlePaste, hfind]
    rw [if_pos hsmall]
  · intro l j hj
    simp only [useImageUploadHandlePaste, hj]

/-- Witness for C4 (amended) on a concrete 5×5 paste: the Resizer
rejects it, the shared hook installs it. -/
theorem minDimensions_enforcement_witness :
    resizerHandlePaste [{ mimeType := "image/png", width := 5, height := 5, byteSize := 77 }]
      = PasteOutcome.imageTooSmall
    ∧ useImageUploadHandlePaste
        (some [{ mimeType := "image/png", width := 5, height := 5, byteSize := 77 }])
      = PasteOutcome.installed { mimeType := "image/png", width := 5, height := 5, byteSize := 77 } := by
  have h := minDimensions_enforcement
    [{ mimeType := "image/png", width := 5, height := 5, byteSize := 77 }]
    { mimeType := "image/png", width := 5, height := 5, byteSize := 77 }
    (by decide) (by decide)
  exact ⟨h.1, h.2 [{ mimeType := "image/png", width := 5, height := 5, byteSize := 77 }]
    { mimeType := "image/png", width := 5, height := 5, byteSize := 77 } (by decide)⟩

/-- C6: with snapshots h_0..h_N in the history and the index at N > 0,
one `undo` decrements the index to N−1 and restores the canvas to
exactly the snapshot h_{N−1}, leaving the history itself unchanged;
at index 0 (the oldest snapshot) `undo` is a no-op on the whole
state. -/
theorem undo_restores_previous (s : HistoryState) (N : ℕ)
    (hlen : s.drawingHistory.length = N + 1)
    (hidx : s.currentHistoryIndex = (N : ℤ)) (hN : 0 < N) :
    (undo s).currentHistoryIndex = (N : ℤ) - 1
    ∧ (undo s).canvas = s.drawingHistory.getD (N - 1) default
    ∧ (undo s).drawingHistory = s.drawingHistory
    ∧ (∀ t : HistoryState, t.currentHistoryIndex = 0 → undo t = t) := by
  have hnle : ¬ s.currentHistoryIndex ≤ 0 := by
    rw [hidx]
    exact not_le.mpr (by exact_mod_cast hN)
  have hlt : N - 1 < s.drawingHistory.length := by omega
  refine ⟨?_, ?_, ?_, ?_⟩
  · simp only [undo, if_neg hnle]
    rw [hidx]
  · simp only [undo, if_neg hnle]
    rw [hidx]
    have h1 : ((N : ℤ) - 1).toNat = N - 1 := by omega
    rw [h1, List.getD_eq_getElem _ _ hlt, List.getD_eq_getElem _ _ hlt]
  · simp only [undo, if_neg hnle]
  · intro t ht
    simp only [undo, ht]
    simp

/-- Witness for C6: from history ["a","b","c"] at index 2, one undo
moves to index 1 and the canvas becomes "b"; a state at index 0 is
untouched. -/
theorem undo_restores_previous_witness :
    (undo { drawingHistory := ["a", "b", "c"], currentHistoryIndex := 2, canvas := "c" }).currentHistoryIndex = 1
    ∧ (undo { drawingHistory := ["a", "b", "c"], currentHistoryIndex := 2, canvas := "c" }).canvas = "b"
    ∧ undo { drawingHistory := ["a", "b", "c"], currentHistoryIndex := 0, canvas := "a" }
        = { drawingHistory := ["a", "b", "c"], currentHistoryIndex := 0, canvas := "a" } := by
  have h := undo_restores_previous
    { drawingHistory := ["a", "b", "c"], currentHistoryIndex := 2, canvas := "c" } 2
    rfl rfl (by decide)
  refine ⟨by rw [h.1]; decide, by rw [h.2.1]; decide,
    h.2.2.2 { drawingHistory := ["a", "b", "c"], currentHistoryIndex := 0, canvas := "a" } rfl⟩

/-- C7: `saveToHistory` truncates every entry beyond the current
index, appends the current canvas as the new snapshot and points the
index at the new last entry; consequently the invariant
`0 ≤ currentHistoryIndex < length(history)` holds after
`saveToHistory`, and `undo` preserves it, whenever the history is
non-empty. -/
theorem saveToHistory_truncates_invariant (s : HistoryState)
    (hge : -1 ≤ s.currentHistoryIndex) :
    (saveToHistory s).drawingHistory
        = s.drawingHistory.take (s.currentHistoryIndex + 1).toNat ++ [s.canvas]
    ∧ (saveToHistory s).currentHistoryIndex
        = ((saveToHistory s).drawingHistory.length : ℤ) - 1
    ∧ historyInvariant (saveToHistory s)
    ∧ (historyInvariant s → historyInvariant (undo s)) := by
  have hsl : jsSliceToEnd (s.currentHistoryIndex + 1) s.drawingHistory
      = s.drawingHistory.take (s.currentHistoryIndex + 1).toNat := by
    unfold jsSliceToEnd
    rw [if_neg (by omega)]
  refine ⟨?_, rfl, ?_, ?_⟩
  · simp only [saveToHistory, hsl]
  · intro _
    simp only [saveToHistory, List.length_append, List.length_cons, List.length_nil]
    constructor <;> push_cast <;> omega
  · intro hinv
    unfold undo
    by_cases hle : s.currentHistoryIndex ≤ 0
    · rw [if_pos hle]
      exact hinv
    · rw [if_neg hle]
      intro hne
      simp only at hne ⊢
      obtain ⟨h0, hlt2⟩ := hinv hne
      exact ⟨by omega, by omega⟩

/-- Witness for C7: from history ["a","b","c"] at index 1 with canvas
"d", saving yields history ["a","b","d"] (the entry "c" beyond the
index is discarded) with the invariant holding. -/
theorem saveToHistory_truncates_invariant_witness :
    (saveToHistory { drawingHistory := ["a", "b", "c"], currentHistoryIndex := 1, canvas := "d" }).drawingHistory
      = ["a", "b", "d"]
    ∧ historyInvariant
        (saveToHistory { drawingHistory := ["a", "b", "c"], currentHistoryIndex := 1, canvas := "d" }) := by
  have h := saveToHistory_truncates_invariant
    { drawingHistory := ["a", "b", "c"], currentHistoryIndex := 1, canvas := "d" } (by decide)
  refine ⟨?_, h.2.2.1⟩
  rw [h.1]
  decide

/-- In a well-formed debounce state, one call to
`debouncedUpdateOutputSizes` leaves exactly the freshly scheduled
200ms timer pending. -/
theorem debounce_step_pending (P : Type) (st : DebounceState P) (p : P)
    (hwf : DebounceWF P st) :
    (debouncedUpdateOutputSizes P st p).pendingTimers
      = [{ id := st.nextId, delayMs := 200, param := p }]
    ∧ (debouncedUpdateOutputSizes P st p).timeoutRef = some st.nextId
    ∧ (debouncedUpdateOutputSizes P st p).nextId = st.nextId + 1 := by
  cases href : st.timeoutRef with
  | none =>
    have hnil : st.pendingTimers = [] := by
      cases hp : st.pendingTimers with
      | nil => rfl
      | cons a l =>
        have := (hwf a (by rw [hp]; exact List.mem_cons_self a l)).1
        rw [href] at this
        exact absurd this (by simp)
    simp [debouncedUpdateOutputSizes, href, hnil]
  | some i =>
    simp [debouncedUpdateOutputSizes, clearTimeoutById, href]
    intro a ha
    have := (hwf a ha).1
    rw [href] at this
    simp only [Option.some.injEq] at this
    exact this.symm

/-- One call to `debouncedUpdateOutputSizes` preserves debounce
well-formedness. -/
theorem debounce_step_wf (P : Type) (st : DebounceState P) (p : P)
    (hwf : DebounceWF P st) :
    DebounceWF P (debouncedUpdateOutputSizes P st p) := by
  obtain ⟨h1, h2, h3⟩ := debounce_step_pending P st p hwf
  intro t ht
  rw [h1] at ht
  simp only [List.mem_singleton] at ht
  subst ht
  rw [h2, h3]
  exact ⟨rfl, Nat.lt_succ_self _⟩

/-- Folding `debouncedUpdateOutputSizes` over any parameter sequence
preserves debounce well-formedness. -/
theorem debounce_foldl_wf (P : Type) (ps : List P) (st : DebounceState P)
    (hwf : DebounceWF P st) :
    DebounceWF P (ps.foldl (debouncedUpdateOutputSizes P) st) := by
  induction ps generalizing st with
  | nil => exact hwf
  | cons a l ih => exact ih _ (debounce_step_wf P st a hwf)

/-- C9: each call of `debouncedUpdateOutputSizes` cancels the pending
debounce timer (if any) and replaces it with a single fresh 200ms
timer capturing the new parameters — at most one timer is ever
pending — this discipline is preserved across calls, and after any
burst of consecutive calls the sole pending timer is the one holding
the last parameter value. -/
theorem debounce_coalesces (P : Type) (st : DebounceState P) (p : P)
    (hwf : DebounceWF P st) :
    (debouncedUpdateOutputSizes P st p).pendingTimers
      = [{ id := st.nextId, delayMs := 200, param := p }]
    ∧ DebounceWF P (debouncedUpdateOutputSizes P st p)
    ∧ ∀ (ps : List P) (q : P),
        (((ps ++ [q]).foldl (debouncedUpdateOutputSizes P) st).pendingTimers).map Timer.param
          = [q] := by
  refine ⟨(debounce_step_pending P st p hwf).1, debounce_step_wf P st p hwf, ?_⟩
  intro ps q
  rw [List.foldl_append]
  simp only [List.foldl_cons, List.foldl_nil]
  rw [(debounce_step_pending P _ q (debounce_foldl_wf P ps st hwf)).1]
  rfl

/-- Witness for C9: from the initial debounce state (no timer
pending) a call schedules exactly one 200ms timer, and a burst of
calls with parameters 1, 2, 3 leaves only the timer for 3 pending. -/
theorem debounce_coalesces_witness :
    (debouncedUpdateOutputSizes ℕ { pendingTimers := [], timeoutRef := none, nextId := 0 } 7).pendingTimers
      = [{ id := 0, delayMs := 200, param := 7 }]
    ∧ ((([1, 2] ++ [3]).foldl (debouncedUpdateOutputSizes ℕ)
          { pendingTimers := [], timeoutRef := none, nextId := 0 }).pendingTimers).map Timer.param
      = [3] := by
  have hwf : DebounceWF ℕ { pendingTimers := [], timeoutRef := none, nextId := 0 } := by
    intro t ht
    simp at ht
  have h := debounce_coalesces ℕ { pendingTimers := [], timeoutRef := none, nextId := 0 } 7 hwf
  exact ⟨h.1, h.2.2 [1, 2] 3⟩

/-- C10: `resetApp` maps every drawer session state to exactly the
initial state: image null, crop undefined, empty drawing history with
index −1, isDrawing false, color `#FF0000`, stroke size 5, eraser
off, output sizes `0.00`/`0.00` and JPEG quality 90. -/
theorem resetApp_eq_initial (s : DrawerState) : resetApp s = initialDrawerState := rfl
